import Mathlib

/-!
A shallow embedding of the interview sequencing logic of `AI-Interview.py`
and of the weather lookup of `MyWeather-AnyCity.py`.

Python strings are modelled as Lean `String`; Python floats are modelled as
exact rationals (`Rat`), so every arithmetic identity proved here is exact.
The remote agent calls (`generate_reply`) are opaque collaborators: each one
is modelled as an input of type `Except String String` (an error message, or
the reply text), so a single embedded step function covers both the success
path and every failure point of the Python `try`/`except` blocks.
-/

namespace Spec2Proof

/-- Whitespace as recognized by Python `str.strip()`, restricted to the ASCII
whitespace characters (space, tab, newline, carriage return, vertical tab,
form feed). -/
def pyIsSpace (c : Char) : Bool :=
  c == ' ' || c == '\t' || c == '\n' || c == '\r' || c == '\x0b' || c == '\x0c'

/-- Python `s.strip()`: drop leading and trailing whitespace. -/
def pyStrip (s : String) : String :=
  ⟨((s.data.dropWhile pyIsSpace).reverse.dropWhile pyIsSpace).reverse⟩

/-- The first list is an initial segment of the second. -/
def leadsWith : List Char → List Char → Bool
  | [], _ => true
  | _ :: _, [] => false
  | a :: as, b :: bs => a == b && leadsWith as bs

/-- The character list `needle` occurs contiguously inside the second list. -/
def hasSubList (needle : List Char) : List Char → Bool
  | [] => leadsWith needle []
  | b :: bs => leadsWith needle (b :: bs) || hasSubList needle bs

/-- Python `needle in hay` on strings: substring occurrence. -/
def hasSub (hay needle : String) : Bool :=
  hasSubList needle.data hay.data

/-- Helper for `pySplitChar`: `acc` holds the current field reversed. -/
def splitCharAux (sep : Char) : List Char → List Char → List String
  | [], acc => [⟨acc.reverse⟩]
  | c :: cs, acc =>
    if c == sep then ⟨acc.reverse⟩ :: splitCharAux sep cs []
    else splitCharAux sep cs (c :: acc)

/-- Python `s.split(sep)` for a single-character separator: every occurrence
of `sep` separates two fields, and empty fields are kept (`"".split(sep)`
is `[""]`). -/
def pySplitChar (sep : Char) (s : String) : List String :=
  splitCharAux sep s.data []

/-- Python `s.upper()` restricted to ASCII letters. -/
def pyUpper (s : String) : String :=
  ⟨s.data.map Char.toUpper⟩

/-- Numeric value of a digit string (most significant digit first). -/
def digitsVal (cs : List Char) : Nat :=
  cs.foldl (fun n c => n * 10 + (c.toNat - 48)) 0

/-- Parse an optionally signed, non-empty, all-digit string (the exponent
digits of a float literal). -/
def parseSignedNat : List Char → Option Int
  | '+' :: r => if r ≠ [] ∧ r.all Char.isDigit then some (digitsVal r) else none
  | '-' :: r => if r ≠ [] ∧ r.all Char.isDigit then some (-(digitsVal r : Int)) else none
  | r => if r ≠ [] ∧ r.all Char.isDigit then some (digitsVal r) else none

/-- Ten raised to an integer power, as a rational. -/
def powTen : Int → Rat
  | Int.ofNat n => ((10 ^ n : Nat) : Rat)
  | Int.negSucc n => 1 / ((10 ^ (n + 1) : Nat) : Rat)

/-- The exponent part of a float literal: empty, or `e`/`E` followed by an
optionally signed digit string. -/
def parseExpPart : List Char → Option Int
  | [] => some 0
  | 'e' :: r => parseSignedNat r
  | 'E' :: r => parseSignedNat r
  | _ => none

/-- Model of Python `float(s)` on an already-stripped string: an optional
sign, then digits with an optional fractional part (at least one digit in
the two parts together), then an optional exponent.  Returns `none` exactly
where Python raises `ValueError`.  The special spellings `inf`/`nan` and
digit-group underscores are not modelled; the value is exact (a rational)
rather than rounded to binary floating point. -/
def pyFloat (s : String) : Option Rat :=
  let sgncs : Int × List Char :=
    match s.data with
    | '-' :: r => (-1, r)
    | '+' :: r => (1, r)
    | r => (1, r)
  let cs := sgncs.2
  let ip := cs.takeWhile Char.isDigit
  let rest1 := cs.dropWhile Char.isDigit
  let fprest : List Char × List Char :=
    match rest1 with
    | '.' :: r => (r.takeWhile Char.isDigit, r.dropWhile Char.isDigit)
    | _ => ([], rest1)
  let fp := fprest.1
  if ip.isEmpty && fp.isEmpty then none
  else
    match parseExpPart fprest.2 with
    | none => none
    | some e =>
      let mant : Rat := (digitsVal ip : Rat) + (digitsVal fp : Rat) / ((10 ^ fp.length : Nat) : Rat)
      some ((sgncs.1 : Rat) * mant * powTen e)

/-- Roles of the messages recorded in `st.session_state.conversation_history`. -/
inductive Role where
  | Interviewer
  | Candidate
  | Coach
  | Scorer
deriving DecidableEq

/-- One message of the conversation history: a role-attributed text together
with the `datetime.now()` timestamp string attached when it was appended. -/
structure Turn where
  role : Role
  content : String
  timestamp : String
deriving DecidableEq

/-- The interview session state held in `st.session_state`
(`AI-Interview.py` lines 53-62): the conversation history, the activity
flags, the question counter, and the running score bookkeeping. -/
structure Session where
  conversation_history : List Turn
  interview_active : Bool
  question_count : Nat
  total_score : Rat
  scores_list : List Rat
  current_question : String
  waiting_for_answer : Bool
deriving DecidableEq

/-- The state written by the initialization block (lines 53-62), which is
also the state observed after `Reset All` deletes every key and the script
reruns. -/
def initialSession : Session :=
  { conversation_history := []
    interview_active := false
    question_count := 0
    total_score := 0
    scores_list := []
    current_question := ""
    waiting_for_answer := false }

/-- The `Reset All` handler (lines 213-216): it deletes every session-state
key, so the rerun re-enters the initialization block and rebuilds
`initialSession`. -/
def resetAll (_ : Session) : Session :=
  initialSession

/-- The `Start Interview` handler, success path (lines 183-201): the session
fields are re-initialized, the Interviewer's first question is appended to
the history, and the session waits for an answer with `question_count = 1`. -/
def startInterview (first_question : String) (ts : String) : Session :=
  { conversation_history :=
      [{ role := Role.Interviewer, content := first_question, timestamp := ts }]
    interview_active := true
    question_count := 1
    total_score := 0
    scores_list := []
    current_question := first_question
    waiting_for_answer := true }

/-- The `End Interview` handler (lines 208-211). -/
def endInterview (s : Session) : Session :=
  { s with interview_active := false, waiting_for_answer := false }

/-- The lines of the Scorer reply that contain the marker `SCORE:` after
upper-casing, in order of appearance (line 358). -/
def markedLines (score_feedback : String) : List String :=
  (pySplitChar '\n' score_feedback).filter (fun line => hasSub (pyUpper line) "SCORE:")

/-- Score extraction (lines 356-364): take the first marker line, the part
before the first `/`, then the part after the last `:`, strip it and parse
it as a float; any failure (no marker line, or an unparsable value) falls
back to the default score 7.0 through the bare `except`.  Total by
construction: no exception can escape. -/
def extractScore (score_feedback : String) : Rat :=
  match markedLines score_feedback with
  | [] => 7
  | score_line :: _ =>
    match pyFloat (pyStrip ((pySplitChar ':' ((pySplitChar '/' score_line).headD "")).getLastD "")) with
    | none => 7
    | some v => v

/-- What the submit handler reports back to the operator: a processed
submission, the `st.warning` shown for an empty answer (line 392), or the
`st.error` shown when a remote agent call raises (line 389). -/
inductive Outcome where
  | ok
  | warned
  | errored (msg : String)
deriving DecidableEq

/-- The `answer_form` submit handler (lines 316-392).  The three
`generate_reply` remote calls are inputs: `Except.error e` means the call
raised with message `e`.  The handler mirrors the Python control flow: the
Candidate turn is appended before the `try` block; each agent turn is
appended right after its call returns; the score (parsed or default) is
appended to `scores_list` and added to `total_score`; then either the next
question is generated (`question_count < num_questions`) or the interview is
closed.  A raise anywhere jumps to the `except`, which only reports the
error — nothing appended so far is removed. -/
def submit (s : Session) (num_questions : Nat) (user_answer : String)
    (coachCall scorerCall interviewerCall : Except String String) (ts : String) :
    Session × Outcome :=
  if pyStrip user_answer = "" then
    (s, Outcome.warned)
  else
    let s1 : Session := { s with conversation_history := s.conversation_history ++
      [{ role := Role.Candidate, content := user_answer, timestamp := ts }] }
    match coachCall with
    | Except.error e => (s1, Outcome.errored e)
    | Except.ok coach_feedback =>
      let s2 : Session := { s1 with conversation_history := s1.conversation_history ++
        [{ role := Role.Coach, content := coach_feedback, timestamp := ts }] }
      match scorerCall with
      | Except.error e => (s2, Outcome.errored e)
      | Except.ok score_feedback =>
        let s3 : Session := { s2 with conversation_history := s2.conversation_history ++
          [{ role := Role.Scorer, content := score_feedback, timestamp := ts }] }
        let score := extractScore score_feedback
        let s4 : Session := { s3 with scores_list := s3.scores_list ++ [score],
                                      total_score := s3.total_score + score }
        if s4.question_count < num_questions then
          match interviewerCall with
          | Except.error e => (s4, Outcome.errored e)
          | Except.ok next_question =>
            ({ s4 with current_question := next_question,
                       conversation_history := s4.conversation_history ++
                         [{ role := Role.Interviewer, content := next_question, timestamp := ts }],
                       question_count := s4.question_count + 1 }, Outcome.ok)
        else
          ({ s4 with waiting_for_answer := false, interview_active := false }, Outcome.ok)

/-- The session after a submit call, discarding the operator-facing outcome. -/
def submitExec (s : Session) (num_questions : Nat) (user_answer : String)
    (coachCall scorerCall interviewerCall : Except String String) (ts : String) : Session :=
  (submit s num_questions user_answer coachCall scorerCall interviewerCall ts).1

/-- The inputs of one fully successful submit step: the operator's answer
and the three agent replies, with the timestamp string of the step. -/
structure StepInputs where
  user_answer : String
  coach_feedback : String
  score_feedback : String
  next_question : String
  ts : String
deriving DecidableEq

/-- One successful submit step (all three remote calls return). -/
def submitOk (num_questions : Nat) (s : Session) (i : StepInputs) : Session :=
  submitExec s num_questions i.user_answer (Except.ok i.coach_feedback)
    (Except.ok i.score_feedback) (Except.ok i.next_question) i.ts

/-- Python `sum(scores_list)`: a left fold from `0`, the same operation
order in which `total_score` is accumulated. -/
def sumScores (l : List Rat) : Rat :=
  l.foldl (fun a b => a + b) 0

/-- The average score as computed at completion (line 407) and in the
sidebar (line 226): `total_score / len(scores_list)`, and `0` when no score
has been recorded yet. -/
def avg_score (s : Session) : Rat :=
  if s.scores_list.isEmpty then 0 else s.total_score / (s.scores_list.length : Rat)

/-- The `performance` section of the downloadable JSON report
(lines 430-434). -/
structure Report where
  scores : List Rat
  average_score : Rat
  total_score : Rat
deriving DecidableEq

/-- Builds the `performance` section of the report from the session. -/
def buildReport (s : Session) : Report :=
  { scores := s.scores_list
    average_score := avg_score s
    total_score := s.total_score }

/-- The session states reachable by the code's own mutations: the
initialization block, `Start Interview`, any submit (successful or not,
empty answer or not), `End Interview`, and `Reset All`. -/
inductive Reachable (num_questions : Nat) : Session → Prop
  | init : Reachable num_questions initialSession
  | start (fq ts : String) : Reachable num_questions (startInterview fq ts)
  | step (s : Session) (ans : String) (cc sc ic : Except String String) (ts : String) :
      Reachable num_questions s →
      Reachable num_questions (submitExec s num_questions ans cc sc ic ts)
  | close (s : Session) : Reachable num_questions s →
      Reachable num_questions (endInterview s)
  | reset (s : Session) : Reachable num_questions s →
      Reachable num_questions (resetAll s)

/-- The JSON payload of a 200 response from the weather endpoint, restricted
to the fields the script reads: `main.temp` and `weather[*].description`. -/
structure WeatherJson where
  main_temp : Rat
  weather_descriptions : List String
deriving DecidableEq

/-- One HTTP response as consumed by `get_weather`: the status code, the
parsed JSON payload, and the raw text (printed on failure). -/
structure HttpResponse where
  status : Nat
  json : WeatherJson
  text : String
deriving DecidableEq

/-- Python `s.capitalize()`: first character upper-cased, the rest
lower-cased (ASCII). -/
def pyCapitalize (s : String) : String :=
  match s.data with
  | [] => ""
  | c :: rest => ⟨Char.toUpper c :: rest.map Char.toLower⟩

/-- What one `get_weather` call produces: the returned value (`none` models
Python `None`), whether the could-not-fetch warning was reported to the
operator, and the temperature and condition lines printed on success. -/
structure FetchOutcome where
  result : Option Rat
  warned : Bool
  printed_temp : Option Rat
  printed_condition : Option String
deriving DecidableEq

/-- `get_weather` from `MyWeather-AnyCity.py` (lines 17-34): a single GET is
issued (exactly one `HttpResponse` is consumed; there is no retry).  On a
non-200 status the warning and the raw response text are printed and `None`
is returned; on a 200 status the fields `main.temp` and
`weather[0].description` are read, reported, and the temperature is
returned. -/
def get_weather (response : HttpResponse) : FetchOutcome :=
  if response.status ≠ 200 then
    { result := none, warned := true, printed_temp := none, printed_condition := none }
  else
    let temp := response.json.main_temp
    let condition := pyCapitalize (response.json.weather_descriptions.headD "")
    { result := some temp, warned := false,
      printed_temp := some temp, printed_condition := some condition }

/-! ### Helper lemmas -/

theorem sumScores_append (l : List Rat) (x : Rat) :
    sumScores (l ++ [x]) = sumScores l + x := by
  simp [sumScores, List.foldl_append]

theorem submit_rejected_of_strip_empty (s : Session) (nq : Nat) (ans : String)
    (cc sc ic : Except String String) (ts : String) (h : pyStrip ans = "") :
    submit s nq ans cc sc ic ts = (s, Outcome.warned) := by
  simp [submit, h]

theorem submit_not_warned_of_strip_ne (s : Session) (nq : Nat) (ans : String)
    (cc sc ic : Except String String) (ts : String) (h : pyStrip ans ≠ "") :
    (submit s nq ans cc sc ic ts).2 ≠ Outcome.warned := by
  unfold submit
  rw [if_neg h]
  cases cc with
  | error e => simp
  | ok cf =>
    cases sc with
    | error e => simp
    | ok sf =>
      dsimp only
      split
      · cases ic with
        | error e => simp
        | ok q => simp
      · simp

/-! ### Claim theorems -/

/-- Claim C4: submitting an empty answer is rejected with the inline
warning and the session is returned untouched, whatever its state and
whatever the (never invoked) remote calls would have replied. -/
theorem C4_empty_answer_rejected (s : Session) (nq : Nat)
    (cc sc ic : Except String String) (ts : String) :
    submit s nq "" cc sc ic ts = (s, Outcome.warned) :=
  submit_rejected_of_strip_empty s nq "" cc sc ic ts rfl

/-- Claim C10: an answer that is only whitespace (not just the empty
string) is likewise rejected with the warning and without mutating the
session, and a submission is ever accepted (that is, not answered by the
warning) only when the answer text is non-empty after stripping. -/
theorem C10_whitespace_rejected (s : Session) (nq : Nat) (ans : String)
    (cc sc ic : Except String String) (ts : String) :
    (pyStrip ans = "" → submit s nq ans cc sc ic ts = (s, Outcome.warned)) ∧
    (pyStrip ans ≠ "" → (submit s nq ans cc sc ic ts).2 ≠ Outcome.warned) :=
  ⟨submit_rejected_of_strip_empty s nq ans cc sc ic ts,
   submit_not_warned_of_strip_ne s nq ans cc sc ic ts⟩

theorem C10_whitespace_rejected_witness :
    submit (startInterview "Q1" "t0") 5 " \t\n " (Except.ok "cf") (Except.ok "sf")
      (Except.ok "q") "t1" = (startInterview "Q1" "t0", Outcome.warned) :=
  (C10_whitespace_rejected (startInterview "Q1" "t0") 5 " \t\n "
    (Except.ok "cf") (Except.ok "sf") (Except.ok "q") "t1").1 (by decide)

/-- Claim C7: `Reset All`, from any session state, leaves the history and
the score list empty and the interview inactive. -/
theorem C7_reset_clears (s : Session) :
    (resetAll s).conversation_history = [] ∧ (resetAll s).scores_list = [] ∧
    (resetAll s).interview_active = false :=
  ⟨rfl, rfl, rfl⟩

/-- Claim C8: `get_weather` consumes exactly one HTTP response; on any
non-200 status it reports the failure and returns no data (and nothing is
retried: the outcome is final), and on a 200 status it reads `main.temp`
and `weather[0].description` and returns the temperature. -/
theorem C8_weather_single_shot (response : HttpResponse) :
    (response.status ≠ 200 →
      get_weather response =
        { result := none, warned := true, printed_temp := none, printed_condition := none }) ∧
    (response.status = 200 →
      (get_weather response).result = some response.json.main_temp ∧
      (get_weather response).warned = false ∧
      (get_weather response).printed_condition =
        some (pyCapitalize (response.json.weather_descriptions.headD ""))) := by
  constructor
  · intro h
    simp [get_weather, h]
  · intro h
    simp [get_weather, h]

theorem C8_weather_single_shot_witness :
    get_weather { status := 404, json := { main_temp := 0, weather_descriptions := [] }, text := "err" } =
      { result := none, warned := true, printed_temp := none, printed_condition := none } ∧
    (get_weather { status := 200, json := { main_temp := 25, weather_descriptions := ["clear sky"] }, text := "ok" }).result =
      some ((25 : Rat)) :=
  ⟨(C8_weather_single_shot
      { status := 404, json := { main_temp := 0, weather_descriptions := [] }, text := "err" }).1
      (by decide),
   ((C8_weather_single_shot
      { status := 200, json := { main_temp := 25, weather_descriptions := ["clear sky"] }, text := "ok" }).2
      rfl).1⟩

/-- Claim C1, counterexample: after an Evaluator-Coach failure the history
is strictly longer than before the call — the claimed rollback (same history
length, Responder turn discarded) does not happen.  Concretely, from the
freshly started session (history length 1) a failing Coach call leaves a
history of length 2. -/
theorem C1_coach_failure_counterexample :
    (submit (startInterview "Q1" "t0") 5 "my answer" (Except.error "boom")
        (Except.ok "cf") (Except.ok "q") "t1").1.conversation_history.length = 2 ∧
    (startInterview "Q1" "t0").conversation_history.length = 1 := by
  constructor
  · decide
  · decide

/-- Claim C1 as amended: when the Evaluator-Coach call (or the
Evaluator-Scorer call) fails during a non-empty submission, the error is
reported, `question_count` and `scores_list` are unchanged, and the
interview stays in its previous activity state — but there is no rollback
of the history: the Responder turn appended before the `try` block remains
(and, on a Scorer failure, the Coach turn remains as well). -/
theorem C1_coach_failure_no_rollback (s : Session) (nq : Nat) (ans : String)
    (e cf ts : String) (sc ic : Except String String)
    (hne : pyStrip ans ≠ "") :
    ((submit s nq ans (Except.error e) sc ic ts).1.question_count = s.question_count ∧
     (submit s nq ans (Except.error e) sc ic ts).1.scores_list = s.scores_list ∧
     (submit s nq ans (Except.error e) sc ic ts).1.interview_active = s.interview_active ∧
     (submit s nq ans (Except.error e) sc ic ts).1.conversation_history =
       s.conversation_history ++
         [{ role := Role.Candidate, content := ans, timestamp := ts }] ∧
     (submit s nq ans (Except.error e) sc ic ts).2 = Outcome.errored e) ∧
    ((submit s nq ans (Except.ok cf) (Except.error e) ic ts).1.question_count = s.question_count ∧
     (submit s nq ans (Except.ok cf) (Except.error e) ic ts).1.scores_list = s.scores_list ∧
     (submit s nq ans (Except.ok cf) (Except.error e) ic ts).1.interview_active = s.interview_active ∧
     (submit s nq ans (Except.ok cf) (Except.error e) ic ts).1.conversation_history =
       s.conversation_history ++
         [{ role := Role.Candidate, content := ans, timestamp := ts },
          { role := Role.Coach, content := cf, timestamp := ts }] ∧
     (submit s nq ans (Except.ok cf) (Except.error e) ic ts).2 = Outcome.errored e) := by
  constructor
  · simp [submit, hne]
  · simp [submit, hne]

theorem C1_coach_failure_no_rollback_witness :
    (submit (startInterview "Q2" "s0") 3 "an answer" (Except.error "timeout")
        (Except.ok "cf") (Except.ok "q") "s1").1.question_count =
      (startInterview "Q2" "s0").question_count ∧
    (submit (startInterview "Q2" "s0") 3 "an answer" (Except.error "timeout")
        (Except.ok "cf") (Except.ok "q") "s1").1.scores_list =
      (startInterview "Q2" "s0").scores_list :=
  ⟨((C1_coach_failure_no_rollback (startInterview "Q2" "s0") 3 "an answer"
      "timeout" "cf" "s1" (Except.ok "cf") (Except.ok "q") (by decide)).1).1,
   (((C1_coach_failure_no_rollback (startInterview "Q2" "s0") 3 "an answer"
      "timeout" "cf" "s1" (Except.ok "cf") (Except.ok "q") (by decide)).1).2).1⟩

/-- Claim C3, counterexample: the extraction takes the FIRST line carrying
the `SCORE:` marker, so a text that does contain the line `SCORE: 7/10` can
still parse to a different value when an earlier line also carries the
marker. -/
theorem C3_first_marker_counterexample :
    (pySplitChar '\n' "SCORE: 3/10\nSCORE: 7/10").contains "SCORE: 7/10" = true ∧
    extractScore "SCORE: 3/10\nSCORE: 7/10" = 3 ∧ (3 : Rat) ≠ 7 := by
  refine ⟨by decide, ?_, by norm_num⟩
  simp +decide [extractScore, markedLines, pySplitChar, splitCharAux, hasSub, hasSubList,
    leadsWith, pyUpper, pyStrip, pyIsSpace, pyFloat, parseExpPart, parseSignedNat,
    digitsVal, powTen]

/-- Claim C3 as amended: score extraction is total (no exception can
escape); if the FIRST marker line is exactly `SCORE: 7/10` the parsed score
is 7.0; if no line carries the marker, or the first marker line's value is
unparsable, the default 7.0 is returned. -/
theorem C3_score_extraction_amended (t : String) :
    ((markedLines t).head? = some "SCORE: 7/10" → extractScore t = 7) ∧
    (markedLines t = [] → extractScore t = 7) ∧
    (∀ line rest, markedLines t = line :: rest →
      pyFloat (pyStrip ((pySplitChar ':' ((pySplitChar '/' line).headD "")).getLastD "")) = none →
      extractScore t = 7) := by
  refine ⟨?_, ?_, ?_⟩
  · intro h
    cases hm : markedLines t with
    | nil => rw [hm] at h; simp at h
    | cons l ls =>
      rw [hm] at h
      simp only [List.head?_cons, Option.some.injEq] at h
      subst h
      simp +decide [extractScore, hm, pySplitChar, splitCharAux, pyStrip, pyIsSpace,
        pyFloat, parseExpPart, parseSignedNat, digitsVal, powTen]
  · intro h
    simp [extractScore, h]
  · intro line rest hm hnone
    unfold extractScore
    rw [hm]
    dsimp only
    rw [hnone]

theorem C3_score_extraction_amended_witness :
    extractScore "SCORE: 7/10" = 7 ∧ extractScore "free-form text, no marker" = 7 :=
  ⟨(C3_score_extraction_amended "SCORE: 7/10").1 (by decide),
   (C3_score_extraction_amended "free-form text, no marker").2.1 (by decide)⟩

theorem submitExec_scores_cases (s : Session) (nq : Nat) (ans : String)
    (cc ic : Except String String) (sf ts : String) :
    (submitExec s nq ans cc (Except.ok sf) ic ts).scores_list = s.scores_list ∨
    (submitExec s nq ans cc (Except.ok sf) ic ts).scores_list =
      s.scores_list ++ [extractScore sf] := by
  unfold submitExec submit
  split
  · exact Or.inl rfl
  · cases cc with
    | error e => exact Or.inl rfl
    | ok cf =>
      dsimp only
      split
      · cases ic with
        | error e => exact Or.inr rfl
        | ok q => exact Or.inr rfl
      · exact Or.inr rfl

/-- Claim C5, counterexample: no [0,10] range check is applied to the value
parsed from the Evaluator-Scorer text, so a reply of `SCORE: 15/10` puts
the out-of-range value 15 into `scores_list`. -/
theorem C5_range_counterexample :
    (submitExec (startInterview "Q1" "t0") 5 "an answer" (Except.ok "feedback")
        (Except.ok "SCORE: 15/10") (Except.ok "Q2") "t1").scores_list = [15] ∧
    ¬ ((15 : Rat) ≤ 10) := by
  constructor
  · simp +decide [submitExec, submit, startInterview, extractScore, markedLines, pySplitChar,
      splitCharAux, hasSub, hasSubList, leadsWith, pyUpper, pyStrip, pyIsSpace, pyFloat,
      parseExpPart, parseSignedNat, digitsVal, powTen]
  · norm_num

/-- Claim C5 as amended: every score stored by a submit step is either a
previously stored score or exactly the value `extractScore` produces from
the Evaluator-Scorer text (the parsed value, or the default 7.0); the value
is stored without any [0,10] clamping or range check, so out-of-range
parsed values are stored as-is. -/
theorem C5_scores_unclamped_amended (s : Session) (nq : Nat) (ans : String)
    (cc ic : Except String String) (sf ts : String) (x : Rat)
    (hx : x ∈ (submitExec s nq ans cc (Except.ok sf) ic ts).scores_list) :
    x ∈ s.scores_list ∨ x = extractScore sf := by
  rcases submitExec_scores_cases s nq ans cc ic sf ts with h | h
  · rw [h] at hx
    exact Or.inl hx
  · rw [h] at hx
    rcases List.mem_append.mp hx with h1 | h1
    · exact Or.inl h1
    · exact Or.inr (List.mem_singleton.mp h1)

theorem C5_scores_unclamped_amended_witness :
    extractScore "SCORE: 15/10" ∈ (startInterview "Q1" "t0").scores_list ∨
      extractScore "SCORE: 15/10" = extractScore "SCORE: 15/10" :=
  C5_scores_unclamped_amended (startInterview "Q1" "t0") 5 "an answer"
    (Except.ok "feedback") (Except.ok "Q2") "SCORE: 15/10" "t1"
    (extractScore "SCORE: 15/10")
    (by simp +decide [submitExec, submit, startInterview])

theorem submitOk_fields_of_lt (nq : Nat) (s : Session) (i : StepInputs)
    (hne : pyStrip i.user_answer ≠ "") (hlt : s.question_count < nq) :
    (submitOk nq s i).question_count = s.question_count + 1 ∧
    (submitOk nq s i).scores_list.length = s.scores_list.length + 1 ∧
    (submitOk nq s i).interview_active = s.interview_active := by
  unfold submitOk submitExec submit
  rw [if_neg hne]
  dsimp only
  rw [if_pos hlt]
  simp

theorem submitOk_fields_of_ge (nq : Nat) (s : Session) (i : StepInputs)
    (hne : pyStrip i.user_answer ≠ "") (hge : ¬ s.question_count < nq) :
    (submitOk nq s i).question_count = s.question_count ∧
    (submitOk nq s i).scores_list.length = s.scores_list.length + 1 ∧
    (submitOk nq s i).interview_active = false := by
  unfold submitOk submitExec submit
  rw [if_neg hne]
  dsimp only
  rw [if_neg hge]
  simp

theorem drive_closes (nq : Nat) :
    ∀ (steps : List StepInputs) (s : Session),
      (∀ i ∈ steps, pyStrip i.user_answer ≠ "") →
      s.question_count + steps.length = nq + 1 →
      steps ≠ [] →
      (steps.foldl (submitOk nq) s).question_count = nq ∧
      (steps.foldl (submitOk nq) s).scores_list.length =
        s.scores_list.length + steps.length ∧
      (steps.foldl (submitOk nq) s).interview_active = false := by
  intro steps
  induction steps with
  | nil => intro s _ _ hne; exact absurd rfl hne
  | cons i rest ih =>
    intro s hne hq _
    cases rest with
    | nil =>
      have hcount : s.question_count = nq := by
        simpa using hq
      have hge : ¬ s.question_count < nq := by omega
      have h := submitOk_fields_of_ge nq s i (hne i (List.mem_cons_self i [])) hge
      simpa [hcount] using h
    | cons j rest2 =>
      have hlt : s.question_count < nq := by
        simp only [List.length_cons] at hq
        omega
      have h := submitOk_fields_of_lt nq s i (hne i (List.mem_cons_self i (j :: rest2))) hlt
      have hne2 : ∀ k ∈ j :: rest2, pyStrip k.user_answer ≠ "" := by
        intro k hk
        exact hne k (List.mem_cons_of_mem i hk)
      have hq2 : (submitOk nq s i).question_count + (j :: rest2).length = nq + 1 := by
        rw [h.1]
        simp only [List.length_cons] at hq ⊢
        omega
      have hres := ih (submitOk nq s i) hne2 hq2 (by simp)
      rw [List.foldl_cons]
      refine ⟨hres.1, ?_, hres.2.2⟩
      rw [hres.2.1, h.2.1]
      simp only [List.length_cons]
      omega

/-- Claim C2: for every valid `max_turns` between 1 and 15, a session driven
from `Start Interview` through `max_turns` successful submissions (non-empty
answers, no remote failures) ends inactive, with `question_count` equal to
`max_turns` and one recorded score per turn. -/
theorem C2_full_run_terminates (max_turns : Nat) (h1 : 1 ≤ max_turns)
    (h15 : max_turns ≤ 15) (fq ts : String) (steps : List StepInputs)
    (hlen : steps.length = max_turns)
    (hne : ∀ i ∈ steps, pyStrip i.user_answer ≠ "") :
    (steps.foldl (submitOk max_turns) (startInterview fq ts)).interview_active = false ∧
    (steps.foldl (submitOk max_turns) (startInterview fq ts)).question_count = max_turns ∧
    (steps.foldl (submitOk max_turns) (startInterview fq ts)).scores_list.length = max_turns := by
  have hnil : steps ≠ [] := by
    intro h
    rw [h] at hlen
    simp at hlen
    omega
  have h := drive_closes max_turns steps (startInterview fq ts) hne
    (by simp [startInterview, hlen]; omega) hnil
  refine ⟨h.2.2, h.1, ?_⟩
  rw [h.2.1]
  simp [startInterview, hlen]

theorem C2_full_run_terminates_witness :
    (([{ user_answer := "I know Python", coach_feedback := "good", score_feedback := "SCORE: 8/10",
         next_question := "Q2", ts := "t1" },
       { user_answer := "More detail", coach_feedback := "nice", score_feedback := "SCORE: 9/10",
         next_question := "", ts := "t2" }] : List StepInputs).foldl
        (submitOk 2) (startInterview "Q1" "t0")).interview_active = false ∧
    (([{ user_answer := "I know Python", coach_feedback := "good", score_feedback := "SCORE: 8/10",
         next_question := "Q2", ts := "t1" },
       { user_answer := "More detail", coach_feedback := "nice", score_feedback := "SCORE: 9/10",
         next_question := "", ts := "t2" }] : List StepInputs).foldl
        (submitOk 2) (startInterview "Q1" "t0")).question_count = 2 ∧
    (([{ user_answer := "I know Python", coach_feedback := "good", score_feedback := "SCORE: 8/10",
         next_question := "Q2", ts := "t1" },
       { user_answer := "More detail", coach_feedback := "nice", score_feedback := "SCORE: 9/10",
         next_question := "", ts := "t2" }] : List StepInputs).foldl
        (submitOk 2) (startInterview "Q1" "t0")).scores_list.length = 2 :=
  C2_full_run_terminates 2 (by norm_num) (by norm_num) "Q1" "t0"
    [{ user_answer := "I know Python", coach_feedback := "good", score_feedback := "SCORE: 8/10",
       next_question := "Q2", ts := "t1" },
     { user_answer := "More detail", coach_feedback := "nice", score_feedback := "SCORE: 9/10",
       next_question := "", ts := "t2" }] rfl (by decide)

theorem submitExec_total (s : Session) (nq : Nat) (ans : String)
    (cc sc ic : Except String String) (ts : String)
    (h : s.total_score = sumScores s.scores_list) :
    (submitExec s nq ans cc sc ic ts).total_score =
      sumScores (submitExec s nq ans cc sc ic ts).scores_list := by
  unfold submitExec submit
  split
  · exact h
  · cases cc with
    | error e => exact h
    | ok cf =>
      cases sc with
      | error e => exact h
      | ok sf =>
        dsimp only
        split
        · cases ic with
          | error e => simp [sumScores_append, h]
          | ok q => simp [sumScores_append, h]
        · simp [sumScores_append, h]

theorem total_eq_sum_of_reachable (nq : Nat) (s : Session)
    (h : Reachable nq s) : s.total_score = sumScores s.scores_list := by
  induction h with
  | init => rfl
  | start fq ts => rfl
  | step s ans cc sc ic ts _ ih => exact submitExec_total s nq ans cc sc ic ts ih
  | close s _ ih => exact ih
  | reset s _ _ => rfl

/-- Claim C9: in every session state the code can produce, the running
`total_score` equals the exact sum of `scores_list` (both submit branches
add the same value to both), so the report's `total_score` field equals the
sum of its exported `scores` list. -/
theorem C9_total_eq_sum (nq : Nat) (s : Session) (h : Reachable nq s) :
    s.total_score = sumScores s.scores_list ∧
    (buildReport s).total_score = sumScores (buildReport s).scores :=
  ⟨total_eq_sum_of_reachable nq s h, total_eq_sum_of_reachable nq s h⟩

theorem C9_total_eq_sum_witness :
    (submitExec (startInterview "Q1" "t0") 1 "my answer" (Except.ok "well done")
        (Except.ok "SCORE: 8/10") (Except.ok "") "t1").total_score =
      sumScores (submitExec (startInterview "Q1" "t0") 1 "my answer" (Except.ok "well done")
        (Except.ok "SCORE: 8/10") (Except.ok "") "t1").scores_list :=
  (C9_total_eq_sum 1
    (submitExec (startInterview "Q1" "t0") 1 "my answer" (Except.ok "well done")
      (Except.ok "SCORE: 8/10") (Except.ok "") "t1")
    (Reachable.step (startInterview "Q1" "t0") "my answer" (Except.ok "well done")
      (Except.ok "SCORE: 8/10") (Except.ok "") "t1" (Reachable.start "Q1" "t0"))).1

/-- Claim C6: in every reachable session state with a non-empty score list —
in particular at interview completion, where the metric and the JSON
report's `average_score` are produced — the reported average
`total_score / len(scores_list)` equals `sum(scores_list) / len(scores_list)`
exactly (rationals model the floats, so no tolerance is needed). -/
theorem C6_average_eq_sum_div_len (nq : Nat) (s : Session) (h : Reachable nq s)
    (hne : s.scores_list ≠ []) :
    avg_score s = sumScores s.scores_list / (s.scores_list.length : Rat) ∧
    (buildReport s).average_score = sumScores s.scores_list / (s.scores_list.length : Rat) := by
  have ht := total_eq_sum_of_reachable nq s h
  have hcore : avg_score s = sumScores s.scores_list / (s.scores_list.length : Rat) := by
    unfold avg_score
    rw [if_neg (by simpa using hne), ht]
  exact ⟨hcore, hcore⟩

theorem C6_average_eq_sum_div_len_witness :
    avg_score (submitExec (startInterview "First question" "u0") 1 "the answer"
        (Except.ok "feedback text") (Except.ok "SCORE: 9/10") (Except.ok "") "u1") =
      sumScores (submitExec (startInterview "First question" "u0") 1 "the answer"
        (Except.ok "feedback text") (Except.ok "SCORE: 9/10") (Except.ok "") "u1").scores_list /
      ((submitExec (startInterview "First question" "u0") 1 "the answer"
        (Except.ok "feedback text") (Except.ok "SCORE: 9/10") (Except.ok "") "u1").scores_list.length : Rat) :=
  (C6_average_eq_sum_div_len 1
    (submitExec (startInterview "First question" "u0") 1 "the answer"
      (Except.ok "feedback text") (Except.ok "SCORE: 9/10") (Except.ok "") "u1")
    (Reachable.step (startInterview "First question" "u0") "the answer"
      (Except.ok "feedback text") (Except.ok "SCORE: 9/10") (Except.ok "") "u1"
      (Reachable.start "First question" "u0"))
    (by simp +decide [submitExec, submit, startInterview])).1

end Spec2Proof
